import Mathlib

/-!
Verification development for the wundergroundpws acquisition-and-failover
coordinator (custom_components/wundergroundpws).

The Python data values flowing through the coordinator (parsed JSON
documents, cached station data, configuration strings) are modelled by the
inductive type `PyVal`.  Numbers are modelled as integers: the only numeric
behaviour the coordinator logic depends on is Python truthiness, where both
`0` and `0.0` are falsy, which `PyVal.int 0` captures.  Python operations
that can raise are modelled as functions into `Except PyErr _`; a Python
function that catches all exceptions and returns `None` is modelled as a
total function into `Option _`.
-/

inductive PyVal where
  | none : PyVal
  | bool : Bool → PyVal
  | int : Int → PyVal
  | str : String → PyVal
  | list : List PyVal → PyVal
  | dict : List (String × PyVal) → PyVal

/-- Python truthiness: `None`, `False`, `0`, `""`, `[]`, `{}` are falsy. -/
def truthy : PyVal → Bool
  | .none => false
  | .bool b => b
  | .int n => n != 0
  | .str s => !s.isEmpty
  | .list xs => !xs.isEmpty
  | .dict es => !es.isEmpty

/-- First value bound to key `k` in a dict entry list (Python dict lookup). -/
def lookupKey (es : List (String × PyVal)) (k : String) : Option PyVal :=
  (es.find? (fun e => e.1 == k)).map (fun e => e.2)

/-- The Python exception classes raised by the container operations the
coordinator uses. -/
inductive PyErr where
  | keyError : PyErr
  | indexError : PyErr
  | typeError : PyErr
  | attributeError : PyErr
deriving DecidableEq

/-- Python subscription `v[k]` with a string key: dicts look the key up and
raise `KeyError` when absent; every other value raises `TypeError`. -/
def pySub : PyVal → String → Except PyErr PyVal
  | .dict es, k =>
    match lookupKey es k with
    | Option.some v => .ok v
    | Option.none => .error .keyError
  | _, _ => .error .typeError

/-- Python subscription `v[i]` with a non-negative integer index. -/
def pyIdx : PyVal → Nat → Except PyErr PyVal
  | .list xs, i =>
    match xs.get? i with
    | Option.some v => .ok v
    | Option.none => .error .indexError
  | .str s, i =>
    match s.data.get? i with
    | Option.some c => .ok (.str (String.mk [c]))
    | Option.none => .error .indexError
  | .dict _, _ => .error .keyError
  | _, _ => .error .typeError

/-- Python `v.get(k, default)`: only dicts have `get`; other values raise
`AttributeError`. -/
def pyDictGet (v : PyVal) (k : String) (dflt : PyVal) : Except PyErr PyVal :=
  match v with
  | .dict es => .ok ((lookupKey es k).getD dflt)
  | _ => .error .typeError

/-- `needle` starts `hay`. -/
def startsWithChars : List Char → List Char → Bool
  | [], _ => true
  | _ :: _, [] => false
  | a :: as, b :: bs => a == b && startsWithChars as bs

/-- `needle` occurs contiguously in `hay`. -/
def segIn (needle hay : List Char) : Bool :=
  match hay with
  | [] => needle.isEmpty
  | _ :: t => startsWithChars needle hay || segIn needle t

/-- Python membership test `k in v` for a string `k`. -/
def pyContains (k : String) (v : PyVal) : Except PyErr Bool :=
  match v with
  | .dict es => .ok (es.any (fun e => e.1 == k))
  | .list xs => .ok (xs.any (fun x => match x with | .str s => s == k | _ => false))
  | .str s => .ok (segIn k.data s.data)
  | _ => .error .typeError

/-- Python `len(v)`. -/
def pyLen (v : PyVal) : Except PyErr Nat :=
  match v with
  | .list xs => .ok xs.length
  | .str s => .ok s.length
  | .dict es => .ok es.length
  | _ => .error .typeError

/-- Entries of `{**a, **b}` for two dict entry lists: keys of `a` in order,
values overridden by `b` where `b` also binds them, then the keys of `b`
not present in `a`. -/
def mergeEntries (ea eb : List (String × PyVal)) : List (String × PyVal) :=
  ea.map (fun e => (e.1, (lookupKey eb e.1).getD e.2))
    ++ eb.filter (fun e => !(ea.any (fun d => d.1 == e.1)))

/-- Python `{**a, **b}`: shallow merge of two dicts, `b` winning on key
collisions; a non-dict operand raises `TypeError`. -/
def pyMerge : PyVal → PyVal → Except PyErr PyVal
  | .dict ea, .dict eb => .ok (.dict (mergeEntries ea eb))
  | _, _ => .error .typeError

/-!
### Request builder

`_build_url` (multi_station_coordinator.py lines 229-247, identical logic in
coordinator.py lines 127-144 and base_coordinator.py lines 162-180) selects a
literal template, appends the optional precision / language parts and the
shared suffix, and fills the placeholders with `str.format`.  `str.format` on
these literal templates inserts each argument value verbatim, with no
escaping of any kind, so the call is embedded as the corresponding string
concatenation.
-/

structure BuildCfg where
  apiKey : String
  lang : String
  latitude : String
  longitude : String
  numericPrecision : String
  unitSystemApi : String

/-- URL for the current-conditions request
(`_build_url(_RESOURCECURRENT, station_id)`). -/
def build_url_current (cfg : BuildCfg) (station_id : String) : String :=
  "https://api.weather.com/v2/pws/observations/current?stationId="
    ++ (station_id
    ++ ((if cfg.numericPrecision != "none" then
          "&numericPrecision=" ++ cfg.numericPrecision
        else "")
    ++ ("&format=json&apiKey="
    ++ (cfg.apiKey
    ++ ("&units=" ++ cfg.unitSystemApi)))))

/-- URL for the 5-day forecast request
(`_build_url(_RESOURCEFORECAST, station_id)`). -/
def build_url_forecast (cfg : BuildCfg) : String :=
  "https://api.weather.com/v3/wx/forecast/daily/5day?geocode="
    ++ (cfg.latitude
    ++ (","
    ++ (cfg.longitude
    ++ ("&language="
    ++ (cfg.lang
    ++ ("&format=json&apiKey="
    ++ (cfg.apiKey
    ++ ("&units=" ++ cfg.unitSystemApi))))))))

/-- `big` contains `small` as a contiguous substring. -/
def strContains (big small : String) : Prop :=
  ∃ s t : String, big = s ++ small ++ t

/-!
### Multi-station coordinator state and refresh cycle

`MultiStationUpdateCoordinator` (multi_station_coordinator.py).  The
constructor stores `sorted(config.stations, key=lambda x: x.priority)`;
Python `sorted` is an ascending stable sort, embedded as Mathlib stable
insertion sort over the priority order.

`_fetch_station_data` wraps its whole body in `try/except Exception` and
returns `None` on any error, so it never raises; it is modelled as an oracle
`fetch : StationConfig → Option PyVal` giving each station its result for
the cycle (`Option.none` = the failure return).  Consequently the
`except` branch of the loop in `get_weather` (which would pop the station
from `_station_data`) is unreachable, and the loop reduces to: collect
`(station, data)` for the stations whose fetch returned a truthy value, in
`self._stations` order.
-/

structure StationConfig where
  pws_id : String
  priority : Int
  name : String
deriving DecidableEq

/-- The priority order used by the constructor sort. -/
def prioLe (a b : StationConfig) : Prop := a.priority ≤ b.priority

instance : DecidableRel prioLe := fun a b => Int.decLe a.priority b.priority

instance : IsTotal StationConfig prioLe := ⟨fun a b => Int.le_total a.priority b.priority⟩

instance : IsTrans StationConfig prioLe := ⟨fun _ _ _ h h2 => le_trans h h2⟩

/-- `sorted(config.stations, key=lambda x: x.priority)`: ascending stable
sort on `priority`. -/
def sortStations (l : List StationConfig) : List StationConfig :=
  List.insertionSort prioLe l

/-- The mutable coordinator attributes the refresh cycle touches:
`self._stations`, `self._station_data`, `self._active_station`, `self.data`.
`stationData` maps a station id to the cached
`{'data': ..., 'last_update': ...}` dict; it is read only through key
lookup, so it is modelled as an association list with key-based update. -/
structure MultiState where
  stations : List StationConfig
  stationData : List (String × PyVal)
  activeStation : Option StationConfig
  data : PyVal

/-- Coordinator state right after `__init__`. -/
def initMultiState (cfgStations : List StationConfig) : MultiState :=
  { stations := sortStations cfgStations
    stationData := []
    activeStation := Option.none
    data := PyVal.none }

/-- Key-based overwrite of the cache (`self._station_data[id] = entry`). -/
def setKey (es : List (String × PyVal)) (k : String) (v : PyVal) :
    List (String × PyVal) :=
  (es.filter (fun e => e.1 != k)) ++ [(k, v)]

/-- A station is a success for the cycle iff `_fetch_station_data` returned
a value and `if station_data:` holds (the returned merged dict is truthy). -/
def fetchOk (fetch : StationConfig → Option PyVal) (s : StationConfig) : Bool :=
  match fetch s with
  | Option.some d => truthy d
  | Option.none => false

/-- The `successful_stations` list built by the loop in `get_weather`:
the stations of `self._stations` (priority order) whose fetch succeeded,
paired with their data. -/
def successfulStations (stations : List StationConfig)
    (fetch : StationConfig → Option PyVal) : List (StationConfig × PyVal) :=
  stations.filterMap (fun s =>
    match fetch s with
    | Option.some d => if truthy d then Option.some (s, d) else Option.none
    | Option.none => Option.none)

/-- One refresh cycle: `get_weather` of `MultiStationUpdateCoordinator`
(lines 123-162).  `now` is the scheduler clock value stored as
`last_update`.  Returns the new state and the value `get_weather` returns
(`Option.none` models the `return None` of the all-failed branch, which is
the refresh cycle reporting failure to its caller). -/
def get_weather_multi (st : MultiState) (fetch : StationConfig → Option PyVal)
    (now : Int) : MultiState × Option PyVal :=
  match successfulStations st.stations fetch with
  | [] => (st, Option.none)
  | (sel, d) :: rest =>
    let cache := ((sel, d) :: rest).foldl
      (fun c sd => setKey c sd.1.pws_id
        (PyVal.dict [("data", sd.2), ("last_update", PyVal.int now)])) st.stationData
    ({ st with stationData := cache, activeStation := Option.some sel, data := d },
      Option.some d)

/-- The dict built for one station by the `station_status` property
(lines 105-117). -/
def stationEntryFields (st : MultiState) (s : StationConfig) : List (String × PyVal) :=
  [("name", PyVal.str s.name),
   ("priority", PyVal.int s.priority),
   ("active", PyVal.bool (match st.activeStation with
     | Option.some a => s.pws_id == a.pws_id
     | Option.none => false)),
   ("last_update",
     (match (lookupKey st.stationData s.pws_id).getD (PyVal.dict []) with
      | PyVal.dict es => (lookupKey es "last_update").getD PyVal.none
      | _ => PyVal.none)),
   ("status", PyVal.str
     (if (lookupKey st.stationData s.pws_id).isSome then "online" else "offline"))]

/-- The `station_status` property (lines 105-117): one entry per configured
station, keyed by station id. -/
def station_status (st : MultiState) : List (String × PyVal) :=
  st.stations.map (fun s => (s.pws_id, PyVal.dict (stationEntryFields st s)))

/-!
### Coordinate learning

Both `get_weather` of the single-station coordinator (coordinator.py lines
101-104) and `_fetch_station_data` (multi_station_coordinator.py lines
188-191) run, after the current-conditions checks:

    if not self._longitude: self._longitude = observations[0]['lon']
    if not self._latitude:  self._latitude  = observations[0]['lat']
-/

structure Coords where
  latitude : PyVal
  longitude : PyVal

/-- `if not self._longitude: self._longitude = observations[0]['lon']`.
Raw subscripts: a missing key raises. -/
def learnLon (c : Coords) (obsArr : PyVal) : Except PyErr Coords :=
  if truthy c.longitude then .ok c else
    match pyIdx obsArr 0 with
    | .ok o0 =>
      match pySub o0 "lon" with
      | .ok v => .ok { c with longitude := v }
      | .error e => .error e
    | .error e => .error e

/-- `if not self._latitude: self._latitude = observations[0]['lat']`. -/
def learnLat (c : Coords) (obsArr : PyVal) : Except PyErr Coords :=
  if truthy c.latitude then .ok c else
    match pyIdx obsArr 0 with
    | .ok o0 =>
      match pySub o0 "lat" with
      | .ok v => .ok { c with latitude := v }
      | .error e => .error e
    | .error e => .error e

/-- The coordinate-learning step, given the observations array of the
current-conditions payload: longitude first, then latitude, as in the
source. -/
def learnCoords (c : Coords) (obsArr : PyVal) : Except PyErr Coords :=
  match learnLon c obsArr with
  | .error e => .error e
  | .ok c1 => learnLat c1 obsArr

/-!
### Per-station fetch with error classification

`_fetch_station_data` (multi_station_coordinator.py lines 164-227).  An
HTTP exchange is modelled as a status code plus `Option PyVal` body, where
`Option.none` means `response.json()` raised (body unparseable or empty)
and `PyVal.none` is a parsed JSON `null`.  The distinct `raise` sites are
classified by `FetchErr`; `pyErr` carries an exception raised by a plain
container operation (these are caught by the enclosing `except` all the
same, so every `FetchErr` makes the Python function return `None`).
-/

structure HttpResponse where
  status : Nat
  body : Option PyVal

inductive FetchErr where
  | httpError : Nat → FetchErr
  | malformed : FetchErr
  | noObservations : FetchErr
  | apiError : String → FetchErr
  | pyErr : PyErr → FetchErr

/-- `sep.join(msgs)` (Python `str.join`). -/
def joinSep (sep : String) : List String → String
  | [] => ""
  | [m] => m
  | m :: rest => m ++ sep ++ joinSep sep rest

/-- `[e['message'] for e in errors]` when every entry is well formed. -/
def errorMessages : List PyVal → Option (List String)
  | [] => Option.some []
  | e :: rest =>
    match e with
    | PyVal.dict es =>
      match lookupKey es "message" with
      | Option.some (PyVal.str m) =>
        (errorMessages rest).map (fun ms => m :: ms)
      | _ => Option.none
    | _ => Option.none

/-- `_check_errors(url, response)` (lines 249-260): succeed when the payload
has no `errors` key or a falsy `errors` value; otherwise raise one error
whose message joins every upstream message (the separator is the
`Error from {url}: ; ` text produced by the adjacent string literals in the
source).  A malformed entry makes the message extraction itself raise, which
is still a fetch failure; that path is folded into `FetchErr.pyErr`. -/
def check_errors (url : String) (resp : PyVal) : Except FetchErr Unit :=
  match pyContains "errors" resp with
  | .error e => .error (.pyErr e)
  | .ok false => .ok ()
  | .ok true =>
    match pySub resp "errors" with
    | .error e => .error (.pyErr e)
    | .ok errs =>
      if truthy errs then
        match errs with
        | PyVal.list xs =>
          match errorMessages xs with
          | Option.some msgs =>
            .error (.apiError (joinSep ("Error from " ++ url ++ ": ; ") msgs))
          | Option.none => .error (.pyErr .typeError)
        | _ => .error (.pyErr .typeError)
      else .ok ()

/-- `_fetch_station_data` (lines 164-227) up to its enclosing
`except Exception` handler: the handler returns `None`, so the Python
function fails exactly when this computation is an `error`.  `curUrl` and
`fcUrl` are the two request URLs (they only feed error text).  The
coordinate-learning step threads `Coords` through. -/
def fetch_station_data (c : Coords) (curUrl fcUrl : String)
    (cur fc : HttpResponse) : Except FetchErr (PyVal × Coords) :=
  if cur.status ≠ 200 then .error (.httpError cur.status) else
  match cur.body with
  | Option.none => .error .malformed
  | Option.some rc =>
  match rc with
  | PyVal.none => .error .malformed
  | _ =>
  match pyContains "observations" rc with
  | .error e => .error (.pyErr e)
  | .ok hasObs =>
  if !hasObs then .error .noObservations else
  match pySub rc "observations" with
  | .error e => .error (.pyErr e)
  | .ok obsArr =>
  if !truthy obsArr then .error .noObservations else
  match check_errors curUrl rc with
  | .error e => .error e
  | .ok _ =>
  match learnCoords c obsArr with
  | .error e => .error (.pyErr e)
  | .ok c1 =>
  if fc.status ≠ 200 then .error (.httpError fc.status) else
  match fc.body with
  | Option.none => .error .malformed
  | Option.some rf =>
  match rf with
  | PyVal.none => .error .malformed
  | _ =>
  match check_errors fcUrl rf with
  | .error e => .error e
  | .ok _ =>
  match pyMerge rc rf with
  | .error e => .error (.pyErr e)
  | .ok merged => .ok (merged, c1)

/-- The claim C6 failure conditions on the current-conditions exchange:
non-200 status, unparseable or null body, absent or empty observations
array, or a truthy upstream error list. -/
def curFailB (cur : HttpResponse) : Bool :=
  (cur.status != 200) ||
  (match cur.body with
   | Option.none => true
   | Option.some PyVal.none => true
   | Option.some rc =>
     (match rc with
      | PyVal.dict es =>
        (match lookupKey es "observations" with
         | Option.none => true
         | Option.some v => !truthy v) ||
        (match lookupKey es "errors" with
         | Option.some v => truthy v
         | Option.none => false)
      | _ => true))

/-- The claim C6 failure conditions on the forecast exchange: non-200
status, unparseable or null body, or a truthy upstream error list. -/
def fcFailB (fc : HttpResponse) : Bool :=
  (fc.status != 200) ||
  (match fc.body with
   | Option.none => true
   | Option.some PyVal.none => true
   | Option.some rf =>
     (match rf with
      | PyVal.dict es =>
        (match lookupKey es "errors" with
         | Option.some v => truthy v
         | Option.none => false)
      | _ => true))

/-- The failure conditions exactly as claim C6 lists them, over the pair of
HTTP exchanges of one fetch.  Written from the claim text, to be compared
with `fetch_station_data`. -/
def claimedFailCondition (cur fc : HttpResponse) : Bool :=
  curFailB cur || fcFailB fc

/-- The additional failure mode of `_fetch_station_data` beyond the claim
C6 list: when a coordinate is not yet known, the coordinate-learning step
subscripts the first observation with a raw key access, so a first
observation lacking that coordinate key raises (and fails the fetch). -/
def missingCoordB (c : Coords) (oes : List (String × PyVal)) : Bool :=
  (!truthy c.longitude && (lookupKey oes "lon").isNone)
    || (!truthy c.latitude && (lookupKey oes "lat").isNone)

/-- `missingCoordB` applied to the shape of the current-conditions payload
(false whenever the payload does not reach the coordinate-learning step). -/
def missingCoordCondition (c : Coords) (cur : HttpResponse) : Bool :=
  match cur.body with
  | Option.some (PyVal.dict es) =>
    match lookupKey es "observations" with
    | Option.some (PyVal.list (PyVal.dict oes :: _)) => missingCoordB c oes
    | _ => false
  | _ => false

/-!
### Field accessors
-/

/-- The unit-less field list of `MultiStationUpdateCoordinator.get_condition`
(lines 278-295). -/
def unit_less_fields : List String :=
  ["humidity", "winddir", "solarRadiation", "uv", "stationID", "neighborhood",
   "obsTimeLocal", "obsTimeUtc", "softwareType", "country", "lon", "lat",
   "realtimeFrequency", "epoch", "qcStatus", "windDirectionCardinal"]

/-- `MultiStationUpdateCoordinator.get_condition` (lines 266-306).
`data` is `self.data`, `unit_system` is `self.unit_system`. -/
def get_condition_multi (unit_system : String) (data : PyVal) (field : String) :
    Except PyErr PyVal :=
  if !truthy data then .ok PyVal.none else
  match pyContains "observations" data with
  | .error e => .error e
  | .ok hasObs =>
  if !hasObs then .ok PyVal.none else
  match pySub data "observations" with
  | .error e => .error e
  | .ok observations =>
  if !truthy observations then .ok PyVal.none else
  match pyLen observations with
  | .error e => .error e
  | .ok n =>
  if n == 0 then .ok PyVal.none else
  match pyIdx observations 0 with
  | .error e => .error e
  | .ok observation =>
  if field ∈ unit_less_fields then pyDictGet observation field PyVal.none else
  match pyDictGet observation unit_system (PyVal.dict []) with
  | .error e => .error e
  | .ok metric_data =>
  match (if truthy metric_data then pyContains field metric_data
         else Except.ok false) with
  | .error e => .error e
  | .ok inMetric =>
  if inMetric then pyDictGet metric_data field PyVal.none
  else pyDictGet observation field PyVal.none

/-- The two unit-less fields of the single-station coordinator
(`FIELD_CONDITION_HUMIDITY`, `FIELD_CONDITION_WINDDIR`; the source comments
in multi_station_coordinator.py bind them to these strings). -/
def single_unit_less_fields : List String := ["humidity", "winddir"]

/-- `WundergroundPWSUpdateCoordinator.get_condition` (coordinator.py lines
159-167): raw subscripts with no guard, and `... or 0` on the unit-less
fields. -/
def get_condition_single (unit_system : String) (data : PyVal) (field : String) :
    Except PyErr PyVal :=
  match pySub data "observations" with
  | .error e => .error e
  | .ok observations =>
  match pyIdx observations 0 with
  | .error e => .error e
  | .ok obs0 =>
  if field ∈ single_unit_less_fields then
    match pySub obs0 field with
    | .error e => .error e
    | .ok v => .ok (if truthy v then v else PyVal.int 0)
  else
    match pySub obs0 unit_system with
    | .error e => .error e
    | .ok sub =>
    match pySub sub field with
    | .error e => .error e
    | .ok v => .ok v

/-- `BaseWundergroundPWSCoordinator.get_condition` (base_coordinator.py
lines 104-116): both branches read `self.data[FIELD_OBSERVATIONS][0]
.get(field)` directly; the unit-system sub-record is never consulted. -/
def get_condition_base (data : PyVal) (field : String) : Except PyErr PyVal :=
  if !truthy data then .ok PyVal.none else
  match pySub data "observations" with
  | .error e => .error e
  | .ok observations =>
  match pyIdx observations 0 with
  | .error e => .error e
  | .ok obs0 => pyDictGet obs0 field PyVal.none

/-- The per-day forecast fields of `get_forecast` (base_coordinator.py lines
124-130).  The constant names are imported from const.py (not part of the
sources); their string values follow the field names of the upstream
forecast payload named by the spec, and no claim depends on the concrete
strings, only on membership in this list. -/
def full_day_fields : List String :=
  ["temperatureMax", "temperatureMin", "calendarDayTemperatureMax",
   "calendarDayTemperatureMin", "validTimeUtc"]

/-- The body of the `try` of `get_forecast` (base_coordinator.py lines
118-135).  `int(period / 2)` on a non-negative int is floor division. -/
def get_forecast_raw (data : PyVal) (field : String) (period : Nat) :
    Except PyErr PyVal :=
  if !truthy data then .ok PyVal.none else
  if field ∈ full_day_fields then
    match pySub data field with
    | .error e => .error e
    | .ok arr => pyIdx arr (period / 2)
  else
    match pySub data "daypart" with
    | .error e => .error e
    | .ok dp =>
    match pyIdx dp 0 with
    | .error e => .error e
    | .ok dp0 =>
    match pySub dp0 field with
    | .error e => .error e
    | .ok arr => pyIdx arr period

/-- The exception classes named by the `except` clause of `get_forecast`:
`(IndexError, TypeError, KeyError)`. -/
def forecast_caught : List PyErr := [.indexError, .typeError, .keyError]

/-- `get_forecast` with its `except (IndexError, TypeError, KeyError)`
handler returning `None`.  An exception outside the caught list would
propagate (remain an `error`). -/
def get_forecast (data : PyVal) (field : String) (period : Nat) :
    Except PyErr PyVal :=
  match get_forecast_raw data field period with
  | .ok v => .ok v
  | .error e => if e ∈ forecast_caught then .ok PyVal.none else .error e

/-- The refresh cycle reports success to its caller exactly when
`get_weather` returns a document (`_async_update_data` forwards the return
value; the all-failed branch returns `None`, the failure signal). -/
def lastRefreshSucceeded (r : Option PyVal) : Bool := r.isSome

/-!
### Helper lemmas
-/

theorem lookup_some_any {es : List (String × PyVal)} {k : String} {v : PyVal}
    (h : lookupKey es k = Option.some v) : es.any (fun e => e.1 == k) = true := by
  induction es with
  | nil => simp [lookupKey] at h
  | cons e rest ih =>
    by_cases hk : e.1 == k
    · simp [hk]
    · simp only [lookupKey, List.find?] at h
      simp only [hk] at h
      simp [hk, ih h]

theorem lookup_none_any {es : List (String × PyVal)} {k : String}
    (h : lookupKey es k = Option.none) : es.any (fun e => e.1 == k) = false := by
  induction es with
  | nil => simp
  | cons e rest ih =>
    simp only [lookupKey, List.find?] at h
    by_cases hk : e.1 == k
    · simp [hk] at h
    · simp only [hk] at h
      simp [hk, ih h]

theorem lookupKey_single_ne {k k2 : String} {v : PyVal} (h : k ≠ k2) :
    lookupKey [(k2, v)] k = Option.none := by
  have : (k2 == k) = false := beq_eq_false_iff_ne.mpr (Ne.symm h)
  simp [lookupKey, List.find?, this]

theorem lookupKey_append (es1 es2 : List (String × PyVal)) (k : String) :
    lookupKey (es1 ++ es2) k =
      (match lookupKey es1 k with
       | Option.some v => Option.some v
       | Option.none => lookupKey es2 k) := by
  induction es1 with
  | nil => simp [lookupKey]
  | cons e rest ih =>
    by_cases hek : e.1 == k
    · simp [lookupKey, List.find?, hek]
    · simp only [List.cons_append, lookupKey, List.find?, hek] at ih ⊢
      exact ih

theorem lookupKey_filter_ne {es : List (String × PyVal)} {k k2 : String}
    (h : k ≠ k2) :
    lookupKey (es.filter (fun e => e.1 != k2)) k = lookupKey es k := by
  induction es with
  | nil => simp
  | cons e rest ih =>
    by_cases hek : e.1 == k
    · have hk : e.1 = k := by simpa using hek
      have : (e.1 != k2) = true := by simp [hk, h]
      simp [List.filter, this, lookupKey, List.find?, hek]
    · by_cases he2 : (e.1 != k2)
      · simp only [List.filter, he2, lookupKey, List.find?, hek] at ih ⊢
        simpa [he2, hek] using ih
      · have : (e.1 != k2) = false := by simpa using he2
        simp only [List.filter, this, lookupKey, List.find?, hek] at ih ⊢
        simpa using ih

theorem lookupKey_setKey_ne {es : List (String × PyVal)} {k k2 : String}
    {v : PyVal} (h : k ≠ k2) : lookupKey (setKey es k2 v) k = lookupKey es k := by
  rw [setKey, lookupKey_append, lookupKey_filter_ne h, lookupKey_single_ne h]
  cases lookupKey es k <;> rfl

/-!
### C9: request builder and URL encoding
-/

/-- C9 counterexample: the claim says every interpolated value is
URL-encoded so that no unescaped reserved character from the inputs reaches
the produced URL.  With an API key containing a space and an ampersand, the
built URL contains the key verbatim, reserved characters unescaped. -/
theorem c9_counterexample :
    build_url_current
        ⟨"my key&injected=1", "en-US", "47.2", "18.6", "none", "m"⟩ "KXXTEST1" =
      "https://api.weather.com/v2/pws/observations/current?stationId=KXXTEST1&format=json&apiKey=my key&injected=1&units=m"
    ∧ strContains
        (build_url_current
          ⟨"my key&injected=1", "en-US", "47.2", "18.6", "none", "m"⟩ "KXXTEST1")
        "my key&injected=1" := by
  refine ⟨by decide,
    "https://api.weather.com/v2/pws/observations/current?stationId=KXXTEST1&format=json&apiKey=",
    "&units=m", by decide⟩

/-- C9 amended: the builder is a pure function of its inputs and the
configuration, but performs no URL encoding: every interpolated value
appears verbatim as a contiguous substring of the produced URL. -/
theorem c9_amended (cfg : BuildCfg) (station_id : String) :
    strContains (build_url_current cfg station_id) cfg.apiKey
    ∧ strContains (build_url_current cfg station_id) station_id
    ∧ strContains (build_url_forecast cfg) cfg.apiKey
    ∧ strContains (build_url_forecast cfg) cfg.latitude
    ∧ strContains (build_url_forecast cfg) cfg.longitude := by
  refine ⟨⟨"https://api.weather.com/v2/pws/observations/current?stationId="
      ++ (station_id
      ++ ((if cfg.numericPrecision != "none" then
            "&numericPrecision=" ++ cfg.numericPrecision
          else "") ++ "&format=json&apiKey=")),
      "&units=" ++ cfg.unitSystemApi, ?_⟩,
    ⟨"https://api.weather.com/v2/pws/observations/current?stationId=",
      (if cfg.numericPrecision != "none" then
        "&numericPrecision=" ++ cfg.numericPrecision
      else "")
      ++ ("&format=json&apiKey=" ++ (cfg.apiKey ++ ("&units=" ++ cfg.unitSystemApi))),
      ?_⟩,
    ⟨"https://api.weather.com/v3/wx/forecast/daily/5day?geocode="
      ++ (cfg.latitude ++ ("," ++ (cfg.longitude ++ ("&language="
      ++ (cfg.lang ++ "&format=json&apiKey="))))),
      "&units=" ++ cfg.unitSystemApi, ?_⟩,
    ⟨"https://api.weather.com/v3/wx/forecast/daily/5day?geocode=",
      "," ++ (cfg.longitude ++ ("&language=" ++ (cfg.lang
      ++ ("&format=json&apiKey=" ++ (cfg.apiKey ++ ("&units=" ++ cfg.unitSystemApi)))))),
      ?_⟩,
    ⟨"https://api.weather.com/v3/wx/forecast/daily/5day?geocode="
      ++ (cfg.latitude ++ ","),
      "&language=" ++ (cfg.lang
      ++ ("&format=json&apiKey=" ++ (cfg.apiKey ++ ("&units=" ++ cfg.unitSystemApi)))),
      ?_⟩⟩ <;>
    simp [build_url_current, build_url_forecast, String.append_assoc]

/-!
### C10: the `or 0` default of the single-station unit-less fields
-/

/-- C10: on the single-station coordinator with an observation present,
`get_condition` on a unit-less field (humidity, wind direction) returns the
stored value when it is truthy and `0` when it is falsy (in particular when
it is `None`), via the `... or 0` in the source. -/
theorem c10_or_zero (us field : String) (v : PyVal) (es oes : List (String × PyVal))
    (rest : List PyVal)
    (hf : field ∈ single_unit_less_fields)
    (hobs : lookupKey es "observations" = Option.some (PyVal.list (PyVal.dict oes :: rest)))
    (hv : lookupKey oes field = Option.some v) :
    get_condition_single us (PyVal.dict es) field =
      .ok (if truthy v then v else PyVal.int 0) := by
  simp [get_condition_single, pySub, hobs, pyIdx, hv, hf]

/-- C10 witness: a stored `None` humidity is reported as `0`. -/
theorem c10_witness :
    get_condition_single "metric"
      (PyVal.dict [("observations", PyVal.list [PyVal.dict [("humidity", PyVal.none)]])])
      "humidity" = .ok (PyVal.int 0) :=
  c10_or_zero "metric" "humidity" PyVal.none _ _ _ (by decide) rfl rfl

/-!
### C4: accessor behaviour on an absent document / missing field
-/

/-- C4 counterexample: the single-station `get_condition` subscripts
`self.data` with no guard, so with no active document (`self.data is None`)
it raises `TypeError` instead of returning an absent value. -/
theorem c4_counterexample :
    get_condition_single "metric" PyVal.none "temp" = .error PyErr.typeError := rfl

/-- C4 amended: the multi-station `get_condition` never raises and returns
the absent value when there is no active document or when the field is
missing from the observation and from the unit-system sub-record; the
single-station `get_condition` raises `TypeError` on an absent document. -/
theorem c4_amended :
    (∀ us field, get_condition_multi us PyVal.none field = .ok PyVal.none)
    ∧ (∀ us field (es oes : List (String × PyVal)) (rest : List PyVal),
        lookupKey es "observations" = Option.some (PyVal.list (PyVal.dict oes :: rest)) →
        lookupKey oes field = Option.none →
        (lookupKey oes us = Option.none ∨
          ∃ mes, lookupKey oes us = Option.some (PyVal.dict mes) ∧
            lookupKey mes field = Option.none) →
        get_condition_multi us (PyVal.dict es) field = .ok PyVal.none)
    ∧ (∀ us field, get_condition_single us PyVal.none field = .error PyErr.typeError) := by
  refine ⟨fun us field => rfl, ?_, fun us field => rfl⟩
  intro us field es oes rest hobs hmiss hsub
  have hne : es ≠ [] := by
    intro hcon
    subst hcon
    simp [lookupKey] at hobs
  have htr : truthy (PyVal.dict es) = true := by
    cases es with
    | nil => exact absurd rfl hne
    | cons a l => rfl
  have hany := lookup_some_any hobs
  by_cases hfl : field ∈ unit_less_fields
  · simp [get_condition_multi, htr, pyContains, hany, pySub, hobs, truthy,
      pyLen, pyIdx, hfl, pyDictGet, hmiss]
  · rcases hsub with hnone | ⟨mes, hus, hmes⟩
    · simp [get_condition_multi, htr, pyContains, hany, pySub, hobs, truthy,
        pyLen, pyIdx, hfl, pyDictGet, hnone, hmiss]
    · cases mes with
      | nil =>
        simp [get_condition_multi, htr, pyContains, hany, pySub, hobs, truthy,
          pyLen, pyIdx, hfl, pyDictGet, hus, hmiss]
      | cons m ms =>
        have hmany := lookup_none_any hmes
        simp [get_condition_multi, htr, pyContains, hany, pySub, hobs, truthy,
          pyLen, pyIdx, hfl, pyDictGet, hus, hmany, hmiss]

/-- C4 witness: a field missing from the sub-record and the observation is
reported absent by the multi-station accessor, while the single-station
accessor raises on an absent document. -/
theorem c4_witness :
    get_condition_multi "metric"
      (PyVal.dict [("observations", PyVal.list [PyVal.dict [("metric", PyVal.dict [])]])])
      "temp" = .ok PyVal.none
    ∧ get_condition_single "metric" PyVal.none "temp" = .error PyErr.typeError :=
  ⟨c4_amended.2.1 "metric" "temp" _ _ _ rfl rfl (Or.inr ⟨[], rfl, rfl⟩),
    c4_amended.2.2 "metric" "temp"⟩

/-!
### C7: first-write-wins coordinate learning
-/

/-- C7 counterexample: coordinates learned from an observation at the zero
coordinate (a falsy value) are overwritten by the next observation, so
"once learned, never overwritten" fails. -/
theorem c7_counterexample :
    learnCoords ⟨PyVal.str "", PyVal.str ""⟩
        (PyVal.list [PyVal.dict [("lat", PyVal.int 0), ("lon", PyVal.int 0)]]) =
      .ok ⟨PyVal.int 0, PyVal.int 0⟩
    ∧ learnCoords ⟨PyVal.int 0, PyVal.int 0⟩
        (PyVal.list [PyVal.dict [("lat", PyVal.int 47), ("lon", PyVal.int 18)]]) =
      .ok ⟨PyVal.int 47, PyVal.int 18⟩
    ∧ PyVal.int 18 ≠ PyVal.int 0 :=
  ⟨rfl, rfl, by simp⟩

/-- C7 amended: a stored coordinate that is truthy (in particular any
non-zero coordinate already learned or configured) is never overwritten by
a later observation; a falsy stored coordinate (unset, empty or zero) is
treated as unset and may be overwritten. -/
theorem c7_amended (c : Coords) (obsArr : PyVal) (c2 : Coords)
    (h : learnCoords c obsArr = .ok c2) :
    (truthy c.longitude = true → c2.longitude = c.longitude)
    ∧ (truthy c.latitude = true → c2.latitude = c.latitude) := by
  have lonStep : ∀ c1, learnLon c obsArr = .ok c1 →
      c1.latitude = c.latitude ∧ (truthy c.longitude = true → c1 = c) := by
    intro c1 h1
    unfold learnLon at h1
    by_cases hlon : truthy c.longitude
    · rw [if_pos hlon] at h1
      injection h1 with h2
      subst h2
      exact ⟨rfl, fun _ => rfl⟩
    · rw [if_neg hlon] at h1
      cases hidx : pyIdx obsArr 0 with
      | error e => simp only [hidx] at h1; cases h1
      | ok o0 =>
        simp only [hidx] at h1
        cases hs : pySub o0 "lon" with
        | error e => simp only [hs] at h1; cases h1
        | ok v =>
          simp only [hs] at h1
          injection h1 with h2
          subst h2
          exact ⟨rfl, fun hc => absurd hc hlon⟩
  have latStep : ∀ c1 c3, learnLat c1 obsArr = .ok c3 →
      c3.longitude = c1.longitude ∧ (truthy c1.latitude = true → c3 = c1) := by
    intro c1 c3 h1
    unfold learnLat at h1
    by_cases hlat : truthy c1.latitude
    · rw [if_pos hlat] at h1
      injection h1 with h2
      subst h2
      exact ⟨rfl, fun _ => rfl⟩
    · rw [if_neg hlat] at h1
      cases hidx : pyIdx obsArr 0 with
      | error e => simp only [hidx] at h1; cases h1
      | ok o0 =>
        simp only [hidx] at h1
        cases hs : pySub o0 "lat" with
        | error e => simp only [hs] at h1; cases h1
        | ok v =>
          simp only [hs] at h1
          injection h1 with h2
          subst h2
          exact ⟨rfl, fun hc => absurd hc hlat⟩
  unfold learnCoords at h
  cases h1 : learnLon c obsArr with
  | error e => simp only [h1] at h; cases h
  | ok c1 =>
    simp only [h1] at h
    obtain ⟨hl1, hl2⟩ := lonStep c1 h1
    obtain ⟨hl3, hl4⟩ := latStep c1 c2 h
    constructor
    · intro hlon
      rw [hl3, hl2 hlon]
    · intro hlat
      have : truthy c1.latitude = true := by rw [hl1]; exact hlat
      rw [hl4 this, hl1]

/-- C7 witness: truthy stored coordinates survive a further learn step. -/
theorem c7_witness :
    (truthy (PyVal.int 18) = true → PyVal.int 18 = PyVal.int 18)
    ∧ (truthy (PyVal.int 47) = true → PyVal.int 47 = PyVal.int 47) :=
  c7_amended ⟨PyVal.int 47, PyVal.int 18⟩ (PyVal.list []) ⟨PyVal.int 47, PyVal.int 18⟩ rfl

/-!
### C5: forecast accessor
-/

theorem pySub_no_attr (v : PyVal) (k : String) :
    pySub v k ≠ .error PyErr.attributeError := by
  cases v with
  | dict es =>
    cases h : lookupKey es k <;> simp [pySub, h]
  | none => simp [pySub]
  | bool b => simp [pySub]
  | int n => simp [pySub]
  | str s => simp [pySub]
  | list xs => simp [pySub]

theorem pyIdx_no_attr (v : PyVal) (i : Nat) :
    pyIdx v i ≠ .error PyErr.attributeError := by
  cases v with
  | list xs => cases h : xs[i]? <;> simp [pyIdx, h]
  | str s => cases h : s.data[i]? <;> simp [pyIdx, h]
  | dict es => simp [pyIdx]
  | none => simp [pyIdx]
  | bool b => simp [pyIdx]
  | int n => simp [pyIdx]

theorem get_forecast_raw_no_attr (data : PyVal) (field : String) (period : Nat) :
    get_forecast_raw data field period ≠ .error PyErr.attributeError := by
  intro hcon
  unfold get_forecast_raw at hcon
  by_cases ht : truthy data
  · simp only [ht, Bool.not_true, Bool.false_eq_true, if_false] at hcon
    by_cases hf : field ∈ full_day_fields
    · rw [if_pos hf] at hcon
      cases h1 : pySub data field with
      | error e =>
        simp only [h1] at hcon
        injection hcon with h2
        exact pySub_no_attr data field (h2 ▸ h1)
      | ok arr =>
        simp only [h1] at hcon
        exact pyIdx_no_attr arr (period / 2) hcon
    · rw [if_neg hf] at hcon
      cases h1 : pySub data "daypart" with
      | error e =>
        simp only [h1] at hcon
        injection hcon with h2
        exact pySub_no_attr data "daypart" (h2 ▸ h1)
      | ok dparts =>
        simp only [h1] at hcon
        cases h2 : pyIdx dparts 0 with
        | error e =>
          simp only [h2] at hcon
          injection hcon with h3
          exact pyIdx_no_attr dparts 0 (h3 ▸ h2)
        | ok dp0 =>
          simp only [h2] at hcon
          cases h3 : pySub dp0 field with
          | error e =>
            simp only [h3] at hcon
            injection hcon with h4
            exact pySub_no_attr dp0 field (h4 ▸ h3)
          | ok arr =>
            simp only [h3] at hcon
            exact pyIdx_no_attr arr period hcon
  · have ht2 : truthy data = false := by simpa using ht
    simp only [ht2, Bool.not_false, if_true] at hcon
    cases hcon

/-- C5: `get_forecast` resolves the per-day fields through `period / 2`
(periods `2k` and `2k+1` read the same day entry `k`), reads every other
field from `daypart[0][field][period]`, and returns the absent value on an
absent document, a missing key or an out-of-range index — its `except`
clause covers every exception its body can raise, so it never raises. -/
theorem c5_forecast :
    (∀ data field k, field ∈ full_day_fields →
      get_forecast data field (2 * k) = get_forecast data field (2 * k + 1))
    ∧ (∀ data field k arr, field ∈ full_day_fields → truthy data = true →
        pySub data field = .ok (PyVal.list arr) →
        get_forecast data field (2 * k) = .ok ((arr.get? k).getD PyVal.none))
    ∧ (∀ data field p dparts dp0 xs, field ∉ full_day_fields → truthy data = true →
        pySub data "daypart" = .ok dparts → pyIdx dparts 0 = .ok dp0 →
        pySub dp0 field = .ok (PyVal.list xs) →
        get_forecast data field p = .ok ((xs.get? p).getD PyVal.none))
    ∧ (∀ field p, get_forecast PyVal.none field p = .ok PyVal.none)
    ∧ (∀ data field p, (get_forecast data field p).isOk = true) := by
  have hdiv : ∀ k : Nat, (2 * k) / 2 = k := by intro k; omega
  have hdiv2 : ∀ k : Nat, (2 * k + 1) / 2 = k := by intro k; omega
  refine ⟨?_, ?_, ?_, fun field p => rfl, ?_⟩
  · intro data field k hf
    unfold get_forecast get_forecast_raw
    rw [if_pos hf, if_pos hf, hdiv k, hdiv2 k]
  · intro data field k arr hf ht hsub
    unfold get_forecast get_forecast_raw
    simp only [ht, Bool.not_true, Bool.false_eq_true, if_false, if_pos hf, hsub,
      hdiv k]
    cases harr : arr[k]? with
    | some v => simp [pyIdx, harr]
    | none => simp [pyIdx, harr, forecast_caught]
  · intro data field p dparts dp0 xs hf ht h1 h2 h3
    unfold get_forecast get_forecast_raw
    simp only [ht, Bool.not_true, Bool.false_eq_true, if_false, if_neg hf, h1, h2, h3]
    cases harr : xs[p]? with
    | some v => simp [pyIdx, harr]
    | none => simp [pyIdx, harr, forecast_caught]
  · intro data field p
    unfold get_forecast
    cases h : get_forecast_raw data field p with
    | ok v => simp [Except.isOk, Except.toBool]
    | error e =>
      cases e with
      | keyError => simp [forecast_caught, Except.isOk, Except.toBool]
      | indexError => simp [forecast_caught, Except.isOk, Except.toBool]
      | typeError => simp [forecast_caught, Except.isOk, Except.toBool]
      | attributeError => exact absurd h (get_forecast_raw_no_attr data field p)

/-- C5 witness: `temperatureMax` at period `2` reads day entry `1`. -/
theorem c5_witness :
    get_forecast (PyVal.dict [("temperatureMax", PyVal.list [PyVal.int 30, PyVal.int 28])])
      "temperatureMax" 2 = .ok (PyVal.int 28) :=
  c5_forecast.2.1 (PyVal.dict [("temperatureMax", PyVal.list [PyVal.int 30, PyVal.int 28])])
    "temperatureMax" 1 [PyVal.int 30, PyVal.int 28] (by decide) rfl rfl

/-!
### C2: a cycle in which every fetch fails
-/

/-- C2: when every configured station fetch fails, the refresh cycle leaves
the active station and the active document untouched and returns `None`
(the failure report of `get_weather`). -/
theorem c2_all_fail (st : MultiState) (fetch : StationConfig → Option PyVal)
    (now : Int) (h : ∀ s ∈ st.stations, fetch s = Option.none) :
    (get_weather_multi st fetch now).1.activeStation = st.activeStation
    ∧ (get_weather_multi st fetch now).1.data = st.data
    ∧ (get_weather_multi st fetch now).2 = Option.none
    ∧ lastRefreshSucceeded (get_weather_multi st fetch now).2 = false := by
  have hs : successfulStations st.stations fetch = [] := by
    unfold successfulStations
    rw [List.filterMap_eq_nil_iff]
    intro s hsmem
    rw [h s hsmem]
  unfold get_weather_multi
  rw [hs]
  exact ⟨rfl, rfl, rfl, rfl⟩

/-- C2 witness: a concrete two-station state with stale data survives an
all-failed cycle unchanged. -/
theorem c2_witness :
    (get_weather_multi
        ⟨[⟨"KTESTA", 1, "aa"⟩, ⟨"KTESTB", 2, "bb"⟩],
         [("KTESTA", PyVal.dict [("data", PyVal.dict [("obs", PyVal.int 7)])])],
         Option.some ⟨"KTESTA", 1, "aa"⟩,
         PyVal.dict [("obs", PyVal.int 7)]⟩
        (fun _ => Option.none) 3).1.activeStation = Option.some ⟨"KTESTA", 1, "aa"⟩
    ∧ (get_weather_multi
        ⟨[⟨"KTESTA", 1, "aa"⟩, ⟨"KTESTB", 2, "bb"⟩],
         [("KTESTA", PyVal.dict [("data", PyVal.dict [("obs", PyVal.int 7)])])],
         Option.some ⟨"KTESTA", 1, "aa"⟩,
         PyVal.dict [("obs", PyVal.int 7)]⟩
        (fun _ => Option.none) 3).1.data = PyVal.dict [("obs", PyVal.int 7)]
    ∧ (get_weather_multi
        ⟨[⟨"KTESTA", 1, "aa"⟩, ⟨"KTESTB", 2, "bb"⟩],
         [("KTESTA", PyVal.dict [("data", PyVal.dict [("obs", PyVal.int 7)])])],
         Option.some ⟨"KTESTA", 1, "aa"⟩,
         PyVal.dict [("obs", PyVal.int 7)]⟩
        (fun _ => Option.none) 3).2 = Option.none
    ∧ lastRefreshSucceeded (get_weather_multi
        ⟨[⟨"KTESTA", 1, "aa"⟩, ⟨"KTESTB", 2, "bb"⟩],
         [("KTESTA", PyVal.dict [("data", PyVal.dict [("obs", PyVal.int 7)])])],
         Option.some ⟨"KTESTA", 1, "aa"⟩,
         PyVal.dict [("obs", PyVal.int 7)]⟩
        (fun _ => Option.none) 3).2 = false :=
  c2_all_fail _ _ 3 (fun _ _ => rfl)

/-!
### C3: stations whose fetch fails
-/

/-- Every entry of `successful_stations` is a configured station whose
fetch succeeded. -/
theorem successfulStations_sub {sts : List StationConfig}
    {fetch : StationConfig → Option PyVal} {p : StationConfig × PyVal}
    (h : p ∈ successfulStations sts fetch) :
    p.1 ∈ sts ∧ fetchOk fetch p.1 = true := by
  unfold successfulStations at h
  obtain ⟨s, hsmem, hfs⟩ := List.mem_filterMap.mp h
  cases hf : fetch s with
  | none => rw [hf] at hfs; cases hfs
  | some d =>
    simp only [hf] at hfs
    by_cases ht : truthy d
    · rw [if_pos ht] at hfs
      injection hfs with h2
      subst h2
      exact ⟨hsmem, by simp [fetchOk, hf, ht]⟩
    · rw [if_neg ht] at hfs
      cases hfs

/-- Writing cache entries for keys other than `k` leaves `k` unchanged. -/
theorem lookupKey_foldl_setKey_ne (f : StationConfig × PyVal → PyVal)
    (ps : List (StationConfig × PyVal)) (c : List (String × PyVal)) (k : String)
    (h : ∀ p ∈ ps, p.1.pws_id ≠ k) :
    lookupKey (ps.foldl (fun c2 sd => setKey c2 sd.1.pws_id (f sd)) c) k
      = lookupKey c k := by
  induction ps generalizing c with
  | nil => rfl
  | cons p rest ih =>
    rw [List.foldl_cons, ih _ (fun q hq => h q (List.mem_cons_of_mem p hq))]
    exact lookupKey_setKey_ne (fun hc => h p (List.mem_cons_self p rest) hc.symm)

/-- The `station_status` entry of a configured station reports `online`
exactly when the cache holds data for its id. -/
theorem station_status_entry (st : MultiState) (s : StationConfig)
    (hs : s ∈ st.stations) :
    ∃ d, lookupKey (station_status st) s.pws_id = Option.some (PyVal.dict d)
      ∧ lookupKey d "status" = Option.some (PyVal.str
          (if (lookupKey st.stationData s.pws_id).isSome then "online" else "offline")) := by
  obtain ⟨sts, cache, act, data⟩ := st
  simp only at hs ⊢
  induction sts with
  | nil => cases hs
  | cons t rest ih =>
    by_cases hid : t.pws_id == s.pws_id
    · have hideq : t.pws_id = s.pws_id := by simpa using hid
      rw [← hideq]
      refine ⟨stationEntryFields ⟨t :: rest, cache, act, data⟩ t, ?_, ?_⟩
      · simp [station_status, lookupKey, List.find?]
      · simp [stationEntryFields, lookupKey, List.find?]
    · rcases List.mem_cons.mp hs with heq | hmem
      · rw [heq] at hid
        simp at hid
      · have hstep : station_status ⟨t :: rest, cache, act, data⟩
            = (t.pws_id, PyVal.dict (stationEntryFields ⟨t :: rest, cache, act, data⟩ t))
              :: station_status ⟨rest, cache, act, data⟩ := by
          simp [station_status, stationEntryFields]
        obtain ⟨d, hd1, hd2⟩ := ih hmem
        refine ⟨d, ?_, hd2⟩
        rw [hstep]
        simp only [lookupKey, List.find?, hid]
        simpa [lookupKey] using hd1

/-- C3 counterexample: a station with previously cached data whose fetch
fails this cycle is still reported `online` by `station_status` (the claim
says it is recorded Offline): the failure return of `_fetch_station_data`
is not an exception, so the `except` branch that would drop the station
never runs and the cache entry — hence the `online` status — survives. -/
theorem c3_counterexample :
    lookupKey (station_status (get_weather_multi
        ⟨[⟨"KTESTA", 1, "aa"⟩],
         [("KTESTA", PyVal.dict [("data", PyVal.dict [("obs", PyVal.int 1)]),
            ("last_update", PyVal.int 5)])],
         Option.some ⟨"KTESTA", 1, "aa"⟩,
         PyVal.dict [("obs", PyVal.int 1)]⟩
        (fun _ => Option.none) 9).1) "KTESTA"
      = Option.some (PyVal.dict [
          ("name", PyVal.str "aa"),
          ("priority", PyVal.int 1),
          ("active", PyVal.bool true),
          ("last_update", PyVal.int 5),
          ("status", PyVal.str "online")])
    ∧ PyVal.str "online" ≠ PyVal.str "offline" :=
  ⟨rfl, fun hcon => absurd (PyVal.str.inj hcon) (by decide)⟩

/-- C3 amended: a station whose fetch fails in a cycle is excluded from
being selected as active for that cycle and its cached entry — the previous
last-known document — is left untouched; its reported status stays
`online` whenever cached data exists (it reads `offline` only when no
cached data exists), because the per-station fetch returns `None` instead
of raising and the cache-removal branch is unreachable. -/
theorem c3_amended (st : MultiState) (fetch : StationConfig → Option PyVal)
    (now : Int) (s : StationConfig)
    (hs : s ∈ st.stations) (hf : fetch s = Option.none)
    (hnd : (st.stations.map (fun t => t.pws_id)).Nodup) :
    (∀ a d, (get_weather_multi st fetch now).2 = Option.some d →
        (get_weather_multi st fetch now).1.activeStation = Option.some a → a ≠ s)
    ∧ lookupKey (get_weather_multi st fetch now).1.stationData s.pws_id
        = lookupKey st.stationData s.pws_id
    ∧ ∃ d, lookupKey (station_status (get_weather_multi st fetch now).1) s.pws_id
        = Option.some (PyVal.dict d)
      ∧ lookupKey d "status" = Option.some (PyVal.str
          (if (lookupKey st.stationData s.pws_id).isSome then "online" else "offline")) := by
  have hokf : fetchOk fetch s = false := by simp [fetchOk, hf]
  cases hsucc : successfulStations st.stations fetch with
  | nil =>
    unfold get_weather_multi
    rw [hsucc]
    refine ⟨fun a d h2 _ => absurd h2 (by simp), rfl, ?_⟩
    exact station_status_entry st s hs
  | cons p rest =>
    have hcachekeys : ∀ q ∈ successfulStations st.stations fetch, q.1.pws_id ≠ s.pws_id := by
      intro q hq hcon
      obtain ⟨hqmem, hqok⟩ := successfulStations_sub hq
      have : q.1 = s := List.inj_on_of_nodup_map hnd hqmem hs hcon
      rw [this] at hqok
      rw [hokf] at hqok
      cases hqok
    have hcache : lookupKey (get_weather_multi st fetch now).1.stationData s.pws_id
        = lookupKey st.stationData s.pws_id := by
      unfold get_weather_multi
      rw [hsucc]
      simp only
      rw [← hsucc]
      exact lookupKey_foldl_setKey_ne _ _ _ _ hcachekeys
    refine ⟨?_, hcache, ?_⟩
    · intro a d h2 hact hcon
      unfold get_weather_multi at hact
      rw [hsucc] at hact
      simp only at hact
      injection hact with h3
      have hpmem : p ∈ successfulStations st.stations fetch := by
        rw [hsucc]; exact List.mem_cons_self p rest
      obtain ⟨hpmem2, hpok⟩ := successfulStations_sub hpmem
      rw [h3, hcon, hokf] at hpok
      cases hpok
    · have hstations : (get_weather_multi st fetch now).1.stations = st.stations := by
        unfold get_weather_multi
        rw [hsucc]
      obtain ⟨d, hd1, hd2⟩ := station_status_entry (get_weather_multi st fetch now).1 s
        (by rw [hstations]; exact hs)
      refine ⟨d, hd1, ?_⟩
      rw [hd2, hcache]

/-- C3 witness: station A fails while B succeeds; the cached entry of A is
untouched by the cycle. -/
theorem c3_witness :
    lookupKey (get_weather_multi
        ⟨[⟨"KTESTA", 1, "aa"⟩, ⟨"KTESTB", 2, "bb"⟩],
         [("KTESTA", PyVal.dict [("data", PyVal.int 1)])],
         Option.none, PyVal.none⟩
        (fun t => if t.pws_id == "KTESTB"
          then Option.some (PyVal.dict [("obs", PyVal.int 2)]) else Option.none)
        9).1.stationData "KTESTA"
      = lookupKey [("KTESTA", PyVal.dict [("data", PyVal.int 1)])] "KTESTA" :=
  (c3_amended
    ⟨[⟨"KTESTA", 1, "aa"⟩, ⟨"KTESTB", 2, "bb"⟩],
     [("KTESTA", PyVal.dict [("data", PyVal.int 1)])],
     Option.none, PyVal.none⟩
    (fun t => if t.pws_id == "KTESTB"
      then Option.some (PyVal.dict [("obs", PyVal.int 2)]) else Option.none)
    9 ⟨"KTESTA", 1, "aa"⟩ (by decide) rfl (by decide)).2.1

/-!
### C1: priority selection
-/

/-- The stations of the `successful_stations` list are exactly the stations
of the attempt list that succeeded, in attempt order. -/
theorem successfulStations_map_fst (sts : List StationConfig)
    (fetch : StationConfig → Option PyVal) :
    (successfulStations sts fetch).map Prod.fst = sts.filter (fetchOk fetch) := by
  induction sts with
  | nil => rfl
  | cons s rest ih =>
    unfold successfulStations at ih ⊢
    rw [List.filterMap_cons, List.filter_cons]
    cases hf : fetch s with
    | none =>
      have : fetchOk fetch s = false := by simp [fetchOk, hf]
      rw [this]
      simpa using ih
    | some d =>
      cases ht : truthy d with
      | false =>
        have : fetchOk fetch s = false := by simp [fetchOk, hf, ht]
        rw [this]
        simpa [ht] using ih
      | true =>
        have : fetchOk fetch s = true := by simp [fetchOk, hf, ht]
        rw [this]
        simpa [ht] using ih

/-- The active station after a cycle is the first station of the sorted
attempt list whose fetch succeeded, or the previous one when none did. -/
theorem get_weather_active (st : MultiState) (fetch : StationConfig → Option PyVal)
    (now : Int) :
    (get_weather_multi st fetch now).1.activeStation =
      (match st.stations.filter (fetchOk fetch) with
       | [] => st.activeStation
       | sel :: _ => Option.some sel) := by
  unfold get_weather_multi
  cases hsucc : successfulStations st.stations fetch with
  | nil =>
    have : st.stations.filter (fetchOk fetch) = [] := by
      rw [← successfulStations_map_fst, hsucc]; rfl
    rw [this]
  | cons p rest =>
    have : st.stations.filter (fetchOk fetch) = p.1 :: rest.map Prod.fst := by
      rw [← successfulStations_map_fst, hsucc]; rfl
    rw [this]

/-- Stability of `orderedInsert` for the priority classes: the element is
inserted in front of its own priority class. -/
theorem filter_prio_orderedInsert (P : Int) (a : StationConfig)
    (l : List StationConfig) :
    (List.orderedInsert prioLe a l).filter (fun t => t.priority == P) =
      if a.priority == P then a :: l.filter (fun t => t.priority == P)
      else l.filter (fun t => t.priority == P) := by
  induction l with
  | nil =>
    cases hp : (a.priority == P) <;> simp [List.orderedInsert, List.filter, hp]
  | cons b rest ih =>
    by_cases hab : prioLe a b
    · have hstep : List.orderedInsert prioLe a (b :: rest) = a :: b :: rest := by
        simp [List.orderedInsert, hab]
      rw [hstep]
      cases hp : (a.priority == P) <;> simp [List.filter_cons, hp]
    · have hstep : List.orderedInsert prioLe a (b :: rest)
          = b :: List.orderedInsert prioLe a rest := by
        simp [List.orderedInsert, hab]
      rw [hstep]
      have hblt : b.priority < a.priority := by
        unfold prioLe at hab; omega
      cases hp : (a.priority == P) with
      | false => simp [List.filter_cons, ih, hp]
      | true =>
        have haP : a.priority = P := by simpa using hp
        have hbP : (b.priority == P) = false := by
          simp only [beq_eq_false_iff_ne]
          omega
        simp [List.filter_cons, ih, hp, hbP]

/-- Stability of the constructor sort: each priority class keeps its
original configuration order. -/
theorem filter_prio_sortStations (P : Int) (l : List StationConfig) :
    (sortStations l).filter (fun t => t.priority == P)
      = l.filter (fun t => t.priority == P) := by
  induction l with
  | nil => rfl
  | cons a rest ih =>
    show (List.orderedInsert prioLe a (List.insertionSort prioLe rest)).filter _ = _
    rw [filter_prio_orderedInsert]
    cases hp : (a.priority == P) <;> simp [List.filter_cons, hp, ← ih, sortStations]

/-- Restricting the head of a filtered list by a further test the head
passes does not change the head. -/
theorem head_filter_and {α : Type} (ok q : α → Bool) (l : List α) (sel : α)
    (h : (l.filter ok).head? = Option.some sel) (hq : q sel = true) :
    (l.filter (fun t => q t && ok t)).head? = Option.some sel := by
  induction l with
  | nil => simp at h
  | cons a r ih =>
    cases hok : ok a with
    | false =>
      rw [List.filter_cons, if_neg (by simp [hok])] at h
      rw [List.filter_cons, if_neg (by simp [hok])]
      exact ih h
    | true =>
      rw [List.filter_cons, if_pos (by simp [hok])] at h
      have hsel : a = sel := by simpa using h
      subst hsel
      rw [List.filter_cons, if_pos (by simp [hok, hq])]
      rfl

/-- C1: when at least one configured station succeeds, the cycle selects as
active the successful station of lowest `priority`; among the successful
stations of that minimal priority, it is the first in the original
configuration order (stable tie-break); and the selection depends only on
which stations succeeded (two fetch outcomes with the same success set give
the same active station — the sequential per-station attempts make any
completion-time permutation irrelevant). -/
theorem c1_selection (cfg : List StationConfig) (fetch : StationConfig → Option PyVal)
    (now : Int) (hex : ∃ s ∈ cfg, fetchOk fetch s = true) :
    ∃ sel,
      (get_weather_multi (initMultiState cfg) fetch now).1.activeStation = Option.some sel
      ∧ fetchOk fetch sel = true
      ∧ sel ∈ cfg
      ∧ (∀ t ∈ cfg, fetchOk fetch t = true → sel.priority ≤ t.priority)
      ∧ Option.some sel =
          (cfg.filter (fun t => (t.priority == sel.priority) && fetchOk fetch t)).head?
      ∧ (∀ fetch2 now2, (∀ s, fetchOk fetch2 s = fetchOk fetch s) →
          (get_weather_multi (initMultiState cfg) fetch2 now2).1.activeStation
            = Option.some sel) := by
  obtain ⟨s0, hs0mem, hs0ok⟩ := hex
  have hperm : List.Perm (List.insertionSort prioLe cfg) cfg := List.perm_insertionSort prioLe cfg
  have hmem0 : s0 ∈ sortStations cfg := hperm.mem_iff.mpr hs0mem
  have hst : (initMultiState cfg).stations = sortStations cfg := rfl
  cases hflt : (sortStations cfg).filter (fetchOk fetch) with
  | nil =>
    have : s0 ∈ (sortStations cfg).filter (fetchOk fetch) :=
      List.mem_filter.mpr ⟨hmem0, hs0ok⟩
    rw [hflt] at this
    cases this
  | cons sel tail =>
    have hselmem : sel ∈ (sortStations cfg).filter (fetchOk fetch) := by
      rw [hflt]; exact List.mem_cons_self sel tail
    obtain ⟨hselsort, hselok⟩ := List.mem_filter.mp hselmem
    refine ⟨sel, ?_, hselok, hperm.mem_iff.mp hselsort, ?_, ?_, ?_⟩
    · rw [get_weather_active, hst, hflt]
    · intro t htmem htok
      have ht2 : t ∈ (sortStations cfg).filter (fetchOk fetch) :=
        List.mem_filter.mpr ⟨hperm.mem_iff.mpr htmem, htok⟩
      rw [hflt] at ht2
      rcases List.mem_cons.mp ht2 with heq | htail
      · rw [heq]
      · have hsorted : List.Sorted prioLe ((sortStations cfg).filter (fetchOk fetch)) :=
          List.Pairwise.filter _ (List.sorted_insertionSort prioLe cfg)
        rw [hflt] at hsorted
        exact (List.pairwise_cons.mp hsorted).1 t htail
    · have hq : (sel.priority == sel.priority) = true := by simp
      have hh : ((sortStations cfg).filter (fetchOk fetch)).head? = Option.some sel := by
        rw [hflt]; rfl
      have h1 : ((sortStations cfg).filter
          (fun t => (t.priority == sel.priority) && fetchOk fetch t)).head?
            = Option.some sel := head_filter_and _ _ _ _ hh hq
      have h2 : (sortStations cfg).filter
          (fun t => (t.priority == sel.priority) && fetchOk fetch t)
            = ((sortStations cfg).filter (fun t => t.priority == sel.priority)).filter
                (fetchOk fetch) := by
        rw [List.filter_filter]
        exact List.filter_congr (fun a _ => by rw [Bool.and_comm])
      have h3 : (cfg.filter (fun t => t.priority == sel.priority)).filter (fetchOk fetch)
            = cfg.filter (fun t => (t.priority == sel.priority) && fetchOk fetch t) := by
        rw [List.filter_filter]
        exact List.filter_congr (fun a _ => by rw [Bool.and_comm])
      rw [← h3, ← filter_prio_sortStations sel.priority cfg, ← h2, h1]
    · intro fetch2 now2 hsame
      have hsamef : (sortStations cfg).filter (fetchOk fetch2)
          = (sortStations cfg).filter (fetchOk fetch) :=
        List.filter_congr (fun a _ => hsame a)
      rw [get_weather_active, hst, hsamef, hflt]

/-- C1 witness: two stations, configured out of priority order, station A
(priority 1) succeeding: A is selected. -/
theorem c1_witness :
    ∃ sel,
      (get_weather_multi
          (initMultiState [⟨"KTESTB", 2, "bb"⟩, ⟨"KTESTA", 1, "aa"⟩])
          (fun t => if t.pws_id == "KTESTA"
            then Option.some (PyVal.dict [("obs", PyVal.int 1)]) else Option.none)
          0).1.activeStation = Option.some sel
      ∧ fetchOk (fun t => if t.pws_id == "KTESTA"
            then Option.some (PyVal.dict [("obs", PyVal.int 1)]) else Option.none)
          sel = true
      ∧ sel ∈ [(⟨"KTESTB", 2, "bb"⟩ : StationConfig), ⟨"KTESTA", 1, "aa"⟩]
      ∧ (∀ t ∈ [(⟨"KTESTB", 2, "bb"⟩ : StationConfig), ⟨"KTESTA", 1, "aa"⟩],
          fetchOk (fun t2 => if t2.pws_id == "KTESTA"
            then Option.some (PyVal.dict [("obs", PyVal.int 1)]) else Option.none)
            t = true → sel.priority ≤ t.priority)
      ∧ Option.some sel =
          (([(⟨"KTESTB", 2, "bb"⟩ : StationConfig), ⟨"KTESTA", 1, "aa"⟩]).filter
            (fun t => (t.priority == sel.priority)
              && fetchOk (fun t2 => if t2.pws_id == "KTESTA"
                  then Option.some (PyVal.dict [("obs", PyVal.int 1)]) else Option.none)
                t)).head?
      ∧ (∀ fetch2 now2, (∀ st2, fetchOk fetch2 st2
            = fetchOk (fun t => if t.pws_id == "KTESTA"
                then Option.some (PyVal.dict [("obs", PyVal.int 1)]) else Option.none)
              st2) →
          (get_weather_multi
            (initMultiState [⟨"KTESTB", 2, "bb"⟩, ⟨"KTESTA", 1, "aa"⟩])
            fetch2 now2).1.activeStation = Option.some sel) :=
  c1_selection [⟨"KTESTB", 2, "bb"⟩, ⟨"KTESTA", 1, "aa"⟩]
    (fun t => if t.pws_id == "KTESTA"
      then Option.some (PyVal.dict [("obs", PyVal.int 1)]) else Option.none)
    0 ⟨⟨"KTESTA", 1, "aa"⟩, by decide, by decide⟩

/-!
### C6: fetch failure classification
-/

/-- C6 counterexample: with coordinates not yet set and a well-formed
current payload whose first observation lacks the `lon` key, the fetch
fails (with an unclassified `KeyError` from the coordinate-learning raw
subscript) although none of the failure conditions listed by the claim
holds. -/
theorem c6_counterexample :
    fetch_station_data ⟨PyVal.str "", PyVal.str ""⟩ "cu" "fu"
        ⟨200, Option.some (PyVal.dict [("observations",
            PyVal.list [PyVal.dict [("humidity", PyVal.int 50)]])])⟩
        ⟨200, Option.some (PyVal.dict [("dayOfWeek", PyVal.list [])])⟩
      = .error (.pyErr PyErr.keyError)
    ∧ claimedFailCondition
        ⟨200, Option.some (PyVal.dict [("observations",
            PyVal.list [PyVal.dict [("humidity", PyVal.int 50)]])])⟩
        ⟨200, Option.some (PyVal.dict [("dayOfWeek", PyVal.list [])])⟩
      = false :=
  ⟨rfl, rfl⟩

/-!
### C8: unit-less versus unit-system fields
-/

/-- C8 counterexample: a non-unit-less field absent from the unit-system
sub-record but present at the top level of the observation is returned from
the top level by the multi-station accessor — the claim says such fields
are read from the sub-record and from nowhere else. -/
theorem c8_counterexample :
    "temp" ∉ unit_less_fields
    ∧ get_condition_multi "metric"
        (PyVal.dict [("observations", PyVal.list
          [PyVal.dict [("temp", PyVal.int 7), ("metric", PyVal.dict [])]])])
        "temp" = .ok (PyVal.int 7)
    ∧ lookupKey ([] : List (String × PyVal)) "temp" = Option.none
    ∧ PyVal.int 7 ≠ PyVal.none :=
  ⟨by decide, rfl, rfl, by simp⟩

/-- C8 amended: the multi-station accessor reads the fields of its
unit-less list directly from the first observation; any other field is read
from the unit-system sub-record when that sub-record is truthy and contains
it, and otherwise falls back to the observation record directly.  The base
accessor reads every field directly from the observation.  The
single-station accessor treats only humidity and wind direction as
unit-less and reads every other field exclusively from the unit-system
sub-record (raising when it is absent). -/
theorem c8_amended (us field : String) (es oes : List (String × PyVal))
    (rest : List PyVal)
    (hobs : lookupKey es "observations" = Option.some (PyVal.list (PyVal.dict oes :: rest))) :
    (field ∈ unit_less_fields →
      get_condition_multi us (PyVal.dict es) field
        = .ok ((lookupKey oes field).getD PyVal.none))
    ∧ (field ∉ unit_less_fields → ∀ mes v,
        lookupKey oes us = Option.some (PyVal.dict mes) →
        lookupKey mes field = Option.some v →
        get_condition_multi us (PyVal.dict es) field = .ok v)
    ∧ (field ∉ unit_less_fields →
        (lookupKey oes us = Option.none ∨
          ∃ mes, lookupKey oes us = Option.some (PyVal.dict mes) ∧
            lookupKey mes field = Option.none) →
        get_condition_multi us (PyVal.dict es) field
          = .ok ((lookupKey oes field).getD PyVal.none))
    ∧ (get_condition_base (PyVal.dict es) field
        = .ok ((lookupKey oes field).getD PyVal.none))
    ∧ (field ∉ single_unit_less_fields →
        get_condition_single us (PyVal.dict es) field =
          (match pySub (PyVal.dict oes) us with
           | .error e => .error e
           | .ok sub => pySub sub field)) := by
  have hne : es ≠ [] := by
    intro hcon
    subst hcon
    simp [lookupKey] at hobs
  have htr : truthy (PyVal.dict es) = true := by
    cases es with
    | nil => exact absurd rfl hne
    | cons a l => rfl
  have hie : es.isEmpty = false := by
    cases es with
    | nil => exact absurd rfl hne
    | cons a l => rfl
  have hany := lookup_some_any hobs
  refine ⟨?_, ?_, ?_, ?_, ?_⟩
  · intro hfl
    simp [get_condition_multi, htr, pyContains, hany, pySub, hobs, truthy,
      pyLen, pyIdx, hfl, pyDictGet, hie]
  · intro hfl mes v hus hv
    have hmesne : mes ≠ [] := by
      intro hcon
      subst hcon
      simp [lookupKey] at hv
    have hmtr : truthy (PyVal.dict mes) = true := by
      cases mes with
      | nil => exact absurd rfl hmesne
      | cons a l => rfl
    have hmie : mes.isEmpty = false := by
      cases mes with
      | nil => exact absurd rfl hmesne
      | cons a l => rfl
    have hmany := lookup_some_any hv
    simp [get_condition_multi, htr, pyContains, hany, pySub, hobs, truthy,
      pyLen, pyIdx, hfl, pyDictGet, hus, hmtr, hmany, hv, hie, hmie]
  · intro hfl hsub
    rcases hsub with hnone | ⟨mes, hus, hmes⟩
    · simp [get_condition_multi, htr, pyContains, hany, pySub, hobs, truthy,
        pyLen, pyIdx, hfl, pyDictGet, hnone, hie]
    · cases mes with
      | nil =>
        simp [get_condition_multi, htr, pyContains, hany, pySub, hobs, truthy,
          pyLen, pyIdx, hfl, pyDictGet, hus, hie]
      | cons m ms =>
        have hmany := lookup_none_any hmes
        simp [get_condition_multi, htr, pyContains, hany, pySub, hobs, truthy,
          pyLen, pyIdx, hfl, pyDictGet, hus, hmany, hie]
  · simp [get_condition_base, htr, pySub, hobs, pyIdx, pyDictGet, hie]
  · intro hfl
    have h0 : get_condition_single us (PyVal.dict es) field =
        (match pySub (PyVal.dict oes) us with
         | .error e => .error e
         | .ok sub =>
           match pySub sub field with
           | .error e => .error e
           | .ok v => .ok v) := by
      simp [get_condition_single, pySub, hobs, pyIdx, hfl]
    rw [h0]
    cases h1 : pySub (PyVal.dict oes) us with
    | error e => rfl
    | ok sub =>
      dsimp only
      cases h2 : pySub sub field <;> simp [h2]

/-- C8 witness: a unit-bearing field present in the sub-record is read from
the sub-record. -/
theorem c8_witness :
    get_condition_multi "metric"
      (PyVal.dict [("observations", PyVal.list
        [PyVal.dict [("metric", PyVal.dict [("temp", PyVal.int 21)])]])])
      "temp" = .ok (PyVal.int 21) :=
  (c8_amended "metric" "temp"
    [("observations", PyVal.list [PyVal.dict [("metric", PyVal.dict [("temp", PyVal.int 21)])]])]
    [("metric", PyVal.dict [("temp", PyVal.int 21)])]
    [] rfl).2.1 (by decide) [("temp", PyVal.int 21)] (PyVal.int 21) rfl rfl

theorem check_errors_ok_none {url : String} {es : List (String × PyVal)}
    (h : lookupKey es "errors" = Option.none) :
    check_errors url (PyVal.dict es) = .ok () := by
  have := lookup_none_any h
  simp [check_errors, pyContains, this]

theorem check_errors_ok_falsy {url : String} {es : List (String × PyVal)} {v : PyVal}
    (h : lookupKey es "errors" = Option.some v) (hv : truthy v = false) :
    check_errors url (PyVal.dict es) = .ok () := by
  have hany := lookup_some_any h
  simp [check_errors, pyContains, hany, pySub, h, hv]

theorem check_errors_fail {url : String} {es : List (String × PyVal)} {v : PyVal}
    (h : lookupKey es "errors" = Option.some v) (hv : truthy v = true) :
    ∃ e, check_errors url (PyVal.dict es) = .error e := by
  have hany := lookup_some_any h
  unfold check_errors
  simp only [pyContains, hany, pySub, h, hv, if_true]
  cases v with
  | list xs =>
    dsimp only
    cases hm : errorMessages xs with
    | some msgs => simp only [hm]; exact ⟨_, rfl⟩
    | none => simp only [hm]; exact ⟨_, rfl⟩
  | none => exact ⟨_, rfl⟩
  | bool b => exact ⟨_, rfl⟩
  | int n => exact ⟨_, rfl⟩
  | str s2 => exact ⟨_, rfl⟩
  | dict es2 => exact ⟨_, rfl⟩

theorem check_errors_msgs {url : String} {es : List (String × PyVal)}
    {xs : List PyVal} {msgs : List String}
    (h : lookupKey es "errors" = Option.some (PyVal.list xs)) (hxs : xs ≠ [])
    (hm : errorMessages xs = Option.some msgs) :
    check_errors url (PyVal.dict es)
      = .error (.apiError (joinSep ("Error from " ++ url ++ ": ; ") msgs)) := by
  have hany := lookup_some_any h
  have htr : truthy (PyVal.list xs) = true := by
    cases xs with
    | nil => exact absurd rfl hxs
    | cons a l => rfl
  simp [check_errors, pyContains, hany, pySub, h, htr, hm]

theorem learnLon_eval (c : Coords) (oes : List (String × PyVal)) (os : List PyVal) :
    learnLon c (PyVal.list (PyVal.dict oes :: os)) =
      (if truthy c.longitude then .ok c else
        match lookupKey oes "lon" with
        | Option.some v => .ok ⟨c.latitude, v⟩
        | Option.none => .error PyErr.keyError) := by
  unfold learnLon
  by_cases hlon : truthy c.longitude
  · simp [hlon]
  · cases hlo : lookupKey oes "lon" <;> simp [hlon, pyIdx, pySub, hlo]

theorem learnLat_eval (c : Coords) (oes : List (String × PyVal)) (os : List PyVal) :
    learnLat c (PyVal.list (PyVal.dict oes :: os)) =
      (if truthy c.latitude then .ok c else
        match lookupKey oes "lat" with
        | Option.some v => .ok ⟨v, c.longitude⟩
        | Option.none => .error PyErr.keyError) := by
  unfold learnLat
  by_cases hlat : truthy c.latitude
  · simp [hlat]
  · cases hla : lookupKey oes "lat" <;> simp [hlat, pyIdx, pySub, hla]

/-- Evaluation of the coordinate-learning step on a well-shaped
observations array: it raises `KeyError` exactly in the missing-coordinate
condition and otherwise succeeds. -/
theorem learnCoords_eval (c : Coords) (oes : List (String × PyVal)) (os : List PyVal) :
    learnCoords c (PyVal.list (PyVal.dict oes :: os)) =
      (if missingCoordB c oes then .error PyErr.keyError else
        .ok ⟨(if truthy c.latitude then c.latitude
              else (lookupKey oes "lat").getD PyVal.none),
             (if truthy c.longitude then c.longitude
              else (lookupKey oes "lon").getD PyVal.none)⟩) := by
  unfold learnCoords
  rw [learnLon_eval]
  by_cases hlon : truthy c.longitude
  · rw [if_pos hlon]
    dsimp only
    rw [learnLat_eval]
    by_cases hlat : truthy c.latitude
    · simp [missingCoordB, hlon, hlat]
    · have hlat2 : truthy c.latitude = false := by simpa using hlat
      cases hla : lookupKey oes "lat" with
      | none => simp [missingCoordB, hlon, hlat2, hla]
      | some v => simp [missingCoordB, hlon, hlat2, hla]
  · have hlon2 : truthy c.longitude = false := by simpa using hlon
    rw [if_neg hlon]
    cases hlo : lookupKey oes "lon" with
    | none => simp [missingCoordB, hlon2, hlo]
    | some v =>
      simp only [hlo]
      rw [learnLat_eval]
      by_cases hlat : truthy c.latitude
      · have hc : truthy (Coords.mk c.latitude v).latitude = true := hlat
        rw [if_pos hc]
        simp [missingCoordB, hlon2, hlo, hlat]
      · have hlat2 : truthy c.latitude = false := by simpa using hlat
        have hlat3 : truthy (Coords.mk c.latitude v).latitude = false := hlat2
        rw [if_neg (by simp [hlat3])]
        cases hla : lookupKey oes "lat" with
        | none => simp [missingCoordB, hlon2, hlo, hlat2, hla]
        | some v2 => simp [missingCoordB, hlon2, hlo, hlat2, hla]

/-- Every message of the list appears contiguously in the joined string. -/
theorem joinSep_mem_contains (sep : String) (msgs : List String) (m : String)
    (h : m ∈ msgs) : strContains (joinSep sep msgs) m := by
  induction msgs with
  | nil => cases h
  | cons m0 rest ih =>
    rcases List.mem_cons.mp h with heq | hmem
    · subst heq
      cases rest with
      | nil => exact ⟨"", "", by simp [joinSep]⟩
      | cons m1 rest2 =>
        exact ⟨"", sep ++ joinSep sep (m1 :: rest2), by simp [joinSep, String.append_assoc]⟩
    · obtain ⟨s, t, hst⟩ := ih hmem
      cases rest with
      | nil => cases hmem
      | cons m1 rest2 =>
        refine ⟨m0 ++ sep ++ s, t, ?_⟩
        rw [show joinSep sep (m0 :: m1 :: rest2)
            = m0 ++ sep ++ joinSep sep (m1 :: rest2) from rfl, hst]
        simp [String.append_assoc]

/-- Once the current-conditions exchange passes its checks, the fetch
succeeds exactly when the coordinate learn finds what it needs and the
forecast exchange passes its checks. -/
theorem fetch_eval_tail (c : Coords) (cu fu : String) (cur fc : HttpResponse)
    (es oes : List (String × PyVal)) (os : List PyVal)
    (h200 : cur.status = 200)
    (hbody : cur.body = Option.some (PyVal.dict es))
    (hobs : lookupKey es "observations" = Option.some (PyVal.list (PyVal.dict oes :: os)))
    (hce : check_errors cu (PyVal.dict es) = .ok ())
    (hfcd : ∀ rf, fc.body = Option.some rf → rf = PyVal.none ∨ ∃ fes, rf = PyVal.dict fes) :
    ((fetch_station_data c cu fu cur fc).isOk = true ↔
      (missingCoordB c oes = false ∧ fcFailB fc = false)) := by
  have hany := lookup_some_any hobs
  unfold fetch_station_data
  have htv : truthy (PyVal.list (PyVal.dict oes :: os)) = true := rfl
  rw [if_neg (by rw [h200]; exact fun hcon => hcon rfl), hbody]
  simp only [pyContains, hany, pySub, hobs, htv, Bool.not_true, Bool.false_eq_true,
    if_false]
  rw [hce, learnCoords_eval]
  by_cases hmc : missingCoordB c oes
  · simp [hmc, Except.isOk, Except.toBool]
  · have hmc2 : missingCoordB c oes = false := by simpa using hmc
    rw [if_neg (by simp [hmc2])]
    dsimp only
    by_cases hf200 : fc.status = 200
    · rw [if_neg (by rw [hf200]; exact fun hcon => hcon rfl)]
      cases hfb : fc.body with
      | none =>
        simp [hmc2, fcFailB, hfb, Except.isOk, Except.toBool]
      | some rf =>
        rcases hfcd rf hfb with rfl | ⟨fes, rfl⟩
        · simp [hmc2, fcFailB, hfb, Except.isOk, Except.toBool]
        · dsimp only
          cases herrf : lookupKey fes "errors" with
          | none =>
            rw [check_errors_ok_none herrf]
            simp [hmc2, fcFailB, hfb, herrf, hf200, pyMerge, Except.isOk, Except.toBool]
          | some ev =>
            cases htev : truthy ev with
            | false =>
              rw [check_errors_ok_falsy herrf htev]
              simp [hmc2, fcFailB, hfb, herrf, htev, hf200, pyMerge,
                Except.isOk, Except.toBool]
            | true =>
              obtain ⟨e, hcef⟩ := check_errors_fail herrf htev
              rw [hcef]
              simp [hmc2, fcFailB, hfb, herrf, htev, hf200,
                Except.isOk, Except.toBool]
    · rw [if_pos hf200]
      have : (fc.status != 200) = true := by
        simp only [bne_iff_ne]
        exact hf200
      simp [hmc2, fcFailB, this, Except.isOk, Except.toBool]

/-- C6 amended: over well-shaped payloads (JSON-object bodies, a list of
observation objects, string error messages), the fetch succeeds exactly
when none of the claimed conditions holds AND the coordinate-learning step
does not hit a first observation lacking a needed coordinate key — this
extra failure mode is missing from the claim list.  When the current
payload carries a non-empty error list, the fetch fails with a single
error aggregating every upstream message. -/
theorem c6_amended (c : Coords) (cu fu : String) (cur fc : HttpResponse)
    (hcur : ∀ es v, cur.body = Option.some (PyVal.dict es) →
        lookupKey es "observations" = Option.some v → truthy v = true →
        ∃ oes os, v = PyVal.list (PyVal.dict oes :: os))
    (hcurd : ∀ rc, cur.body = Option.some rc → rc = PyVal.none ∨ ∃ es, rc = PyVal.dict es)
    (hfcd : ∀ rf, fc.body = Option.some rf → rf = PyVal.none ∨ ∃ fes, rf = PyVal.dict fes) :
    ((fetch_station_data c cu fu cur fc).isOk = true ↔
      (claimedFailCondition cur fc = false ∧ missingCoordCondition c cur = false))
    ∧ (∀ es xs msgs oes os, cur.status = 200 →
        cur.body = Option.some (PyVal.dict es) →
        lookupKey es "observations" = Option.some (PyVal.list (PyVal.dict oes :: os)) →
        lookupKey es "errors" = Option.some (PyVal.list xs) → xs ≠ [] →
        errorMessages xs = Option.some msgs →
        fetch_station_data c cu fu cur fc =
          .error (.apiError (joinSep ("Error from " ++ cu ++ ": ; ") msgs))
        ∧ ∀ m ∈ msgs, strContains (joinSep ("Error from " ++ cu ++ ": ; ") msgs) m) := by
  constructor
  · by_cases h200 : cur.status = 200
    · cases hbody : cur.body with
      | none =>
        have hfetch : fetch_station_data c cu fu cur fc = .error .malformed := by
          unfold fetch_station_data
          rw [if_neg (by rw [h200]; exact fun hcon => hcon rfl), hbody]
        have hclaim : claimedFailCondition cur fc = true := by
          simp [claimedFailCondition, curFailB, hbody]
        simp [hfetch, hclaim, Except.isOk, Except.toBool]
      | some rc =>
        rcases hcurd rc hbody with rfl | ⟨es, rfl⟩
        · have hfetch : fetch_station_data c cu fu cur fc = .error .malformed := by
            unfold fetch_station_data
            rw [if_neg (by rw [h200]; exact fun hcon => hcon rfl), hbody]
          have hclaim : claimedFailCondition cur fc = true := by
            simp [claimedFailCondition, curFailB, hbody]
          simp [hfetch, hclaim, Except.isOk, Except.toBool]
        · cases hobs : lookupKey es "observations" with
          | none =>
            have hanyf := lookup_none_any hobs
            have hfetch : fetch_station_data c cu fu cur fc = .error .noObservations := by
              unfold fetch_station_data
              rw [if_neg (by rw [h200]; exact fun hcon => hcon rfl), hbody]
              simp [pyContains, hanyf]
            have hclaim : claimedFailCondition cur fc = true := by
              simp [claimedFailCondition, curFailB, hbody, hobs]
            simp [hfetch, hclaim, Except.isOk, Except.toBool]
          | some v =>
            cases htv : truthy v with
            | false =>
              have hany := lookup_some_any hobs
              have hfetch : fetch_station_data c cu fu cur fc = .error .noObservations := by
                unfold fetch_station_data
                rw [if_neg (by rw [h200]; exact fun hcon => hcon rfl), hbody]
                simp [pyContains, hany, pySub, hobs, htv]
              have hclaim : claimedFailCondition cur fc = true := by
                simp [claimedFailCondition, curFailB, hbody, hobs, htv]
              simp [hfetch, hclaim, Except.isOk, Except.toBool]
            | true =>
              obtain ⟨oes, os, rfl⟩ := hcur es v hbody hobs htv
              have hany := lookup_some_any hobs
              have hmcc : missingCoordCondition c cur = missingCoordB c oes := by
                simp [missingCoordCondition, hbody, hobs]
              cases herr : lookupKey es "errors" with
              | none =>
                have hce : check_errors cu (PyVal.dict es) = .ok () :=
                  check_errors_ok_none herr
                have htail := fetch_eval_tail c cu fu cur fc es oes os h200 hbody
                  hobs hce hfcd
                have hcf : curFailB cur = false := by
                  simp [curFailB, h200, hbody, hobs, htv, herr]
                have hcl : claimedFailCondition cur fc = fcFailB fc := by
                  simp [claimedFailCondition, hcf]
                rw [htail, hmcc, hcl]
                exact And.comm
              | some ev =>
                cases htev : truthy ev with
                | false =>
                  have hce : check_errors cu (PyVal.dict es) = .ok () :=
                    check_errors_ok_falsy herr htev
                  have htail := fetch_eval_tail c cu fu cur fc es oes os h200 hbody
                    hobs hce hfcd
                  have hcf : curFailB cur = false := by
                    simp [curFailB, h200, hbody, hobs, htv, herr, htev]
                  have hcl : claimedFailCondition cur fc = fcFailB fc := by
                    simp [claimedFailCondition, hcf]
                  rw [htail, hmcc, hcl]
                  exact And.comm
                | true =>
                  obtain ⟨e, hcef⟩ := check_errors_fail herr htev
                  have htvl : truthy (PyVal.list (PyVal.dict oes :: os)) = true := rfl
                  have hfetch : fetch_station_data c cu fu cur fc = .error e := by
                    unfold fetch_station_data
                    rw [if_neg (by rw [h200]; exact fun hcon => hcon rfl), hbody]
                    simp only [pyContains, hany, pySub, hobs, htvl, Bool.not_true,
                      Bool.false_eq_true, if_false]
                    rw [hcef]
                  have hclaim : claimedFailCondition cur fc = true := by
                    simp [claimedFailCondition, curFailB, hbody, hobs, herr, htev]
                  simp [hfetch, hclaim, Except.isOk, Except.toBool]
    · have hfetch : fetch_station_data c cu fu cur fc = .error (.httpError cur.status) := by
        unfold fetch_station_data
        rw [if_pos h200]
      have hclaim : claimedFailCondition cur fc = true := by
        have : (cur.status != 200) = true := by
          simp only [bne_iff_ne]
          exact h200
        simp [claimedFailCondition, curFailB, this]
      simp [hfetch, hclaim, Except.isOk, Except.toBool]
  · intro es xs msgs oes os h200 hbody hobs herr hxs hm
    have hce : check_errors cu (PyVal.dict es)
        = .error (.apiError (joinSep ("Error from " ++ cu ++ ": ; ") msgs)) :=
      check_errors_msgs herr hxs hm
    have hany := lookup_some_any hobs
    have htvl : truthy (PyVal.list (PyVal.dict oes :: os)) = true := rfl
    constructor
    · unfold fetch_station_data
      rw [if_neg (by rw [h200]; exact fun hcon => hcon rfl), hbody]
      simp only [pyContains, hany, pySub, hobs, htvl, Bool.not_true,
        Bool.false_eq_true, if_false]
      rw [hce]
    · exact fun m hmem => joinSep_mem_contains _ _ _ hmem

/-- C6 witness: a well-formed success exchange satisfies the amended
equivalence. -/
theorem c6_witness :
    ((fetch_station_data ⟨PyVal.int 47, PyVal.int 18⟩ "cu" "fu"
        ⟨200, Option.some (PyVal.dict [("observations", PyVal.list
          [PyVal.dict [("lat", PyVal.int 47), ("lon", PyVal.int 18)]])])⟩
        ⟨200, Option.some (PyVal.dict [("dayOfWeek", PyVal.list [])])⟩).isOk = true ↔
      (claimedFailCondition
          ⟨200, Option.some (PyVal.dict [("observations", PyVal.list
            [PyVal.dict [("lat", PyVal.int 47), ("lon", PyVal.int 18)]])])⟩
          ⟨200, Option.some (PyVal.dict [("dayOfWeek", PyVal.list [])])⟩ = false
        ∧ missingCoordCondition ⟨PyVal.int 47, PyVal.int 18⟩
            ⟨200, Option.some (PyVal.dict [("observations", PyVal.list
              [PyVal.dict [("lat", PyVal.int 47), ("lon", PyVal.int 18)]])])⟩ = false)) :=
  (c6_amended ⟨PyVal.int 47, PyVal.int 18⟩ "cu" "fu"
    ⟨200, Option.some (PyVal.dict [("observations", PyVal.list
      [PyVal.dict [("lat", PyVal.int 47), ("lon", PyVal.int 18)]])])⟩
    ⟨200, Option.some (PyVal.dict [("dayOfWeek", PyVal.list [])])⟩
    (by
      intro es v h1 h2 h3
      injection h1 with h1a
      have hes := PyVal.dict.inj h1a
      subst hes
      injection (show Option.some (PyVal.list
          [PyVal.dict [("lat", PyVal.int 47), ("lon", PyVal.int 18)]])
          = Option.some v from h2) with hv
      subst hv
      exact ⟨[("lat", PyVal.int 47), ("lon", PyVal.int 18)], [], rfl⟩)
    (by
      intro rc h1
      injection h1 with h1a
      exact Or.inr ⟨_, h1a.symm⟩)
    (by
      intro rf h1
      injection h1 with h1a
      exact Or.inr ⟨_, h1a.symm⟩)).1
